import Mathlib

/-!
Shallow embedding of the merjane fulfillment engine.

Sources embedded:
- `src/src/services/impl/product.service.ts` (ProductService): `processProduct`,
  `notifyDelay`, `handleSeasonalProduct`, `handleExpiredProduct`,
  `processNormalProduct`, `processSeasonalProduct`, `processExpirableProduct`.
- `src/src/repositories/product.repository.ts` (ProductRepository):
  `updateProduct`, `decrementStock`, `setOutOfStock`.
- `OrderService.processOrder` and `OrderRepository.findOrderWithProducts`.

Modelling choices:
- Timestamps are `Int` milliseconds since the epoch; `new Date()` becomes an
  explicit `now : Int` parameter. The service samples `new Date()` separately in
  `processSeasonalProduct` / `handleSeasonalProduct` and in
  `processExpirableProduct` / `handleExpiredProduct`; both samples belong to one
  synchronous call, so the embedding threads a single `now` through a call.
- The schema declares `expiryDate`, `seasonStartDate`, `seasonEndDate` nullable,
  but the service dereferences them with non-null assertions (`p.expiryDate!`),
  so the embedding carries them as plain `Int` fields.
- `product.type` is a string in the database schema and the dispatch is a record
  lookup by that string, so `type` is a `String` here; an unknown string has no
  handler and `processProduct` throws (`Except.error`).
- Side effects (repository writes, notification-sink calls) are recorded as an
  ordered event trace; the mutated-in-place product record is returned
  explicitly. JavaScript number mutation becomes functional record update.
-/

namespace Merjane

deriving instance DecidableEq for Except

/-- constant MILLISECONDS_PER_DAY = 1000 * 60 * 60 * 24 from product.service.ts. -/
def MILLISECONDS_PER_DAY : Int := 1000 * 60 * 60 * 24

/-- One product record, after `products.$inferSelect` in the drizzle schema. -/
structure Product where
  id : Int
  leadTime : Int
  available : Int
  type : String
  name : String
  expiryDate : Int
  seasonStartDate : Int
  seasonEndDate : Int
  deriving DecidableEq, Repr

/-- One observable side effect: a repository write or a notification-sink call,
in the order the service issues them. `updateProduct` carries the full record
written (the convenience ops `decrementStock` / `setOutOfStock` each issue a
single `updateProduct`, so every persistence write appears as `updateProduct`). -/
inductive Event where
  | updateProduct (p : Product)
  | delayNotification (leadTime : Int) (name : String)
  | outOfStockNotification (name : String)
  | expirationNotification (name : String) (expiryDate : Int)
  deriving DecidableEq, Repr

/-- Event classifier: persistence writes. -/
def Event.isPersist : Event → Bool
  | .updateProduct _ => true
  | _ => false

/-- Event classifier: notification-sink calls. -/
def Event.isNotify : Event → Bool
  | .updateProduct _ => false
  | _ => true

/-- ProductRepository.updateProduct: full-record update by id. -/
def updateProduct (p : Product) : Product × List Event :=
  (p, [Event.updateProduct p])

/-- ProductRepository.decrementStock: `product.available -= 1` then updateProduct. -/
def decrementStock (p : Product) : Product × List Event :=
  updateProduct { p with available := p.available - 1 }

/-- ProductRepository.setOutOfStock: `product.available = 0` then updateProduct. -/
def setOutOfStock (p : Product) : Product × List Event :=
  updateProduct { p with available := 0 }

/-- ProductService.notifyDelay: set leadTime, persist, then send the delay
notification. -/
def notifyDelay (leadTime : Int) (p : Product) : Product × List Event :=
  let p1 := { p with leadTime := leadTime }
  let r := updateProduct p1
  (r.1, r.2 ++ [Event.delayNotification leadTime r.1.name])

/-- ProductService.handleSeasonalProduct: the seasonal out-of-stock sub-decision. -/
def handleSeasonalProduct (now : Int) (p : Product) : Product × List Event :=
  let restockDate := now + p.leadTime * MILLISECONDS_PER_DAY
  if restockDate > p.seasonEndDate then
    let r := setOutOfStock p
    (r.1, Event.outOfStockNotification p.name :: r.2)
  else if p.seasonStartDate > now then
    let r := updateProduct p
    (r.1, Event.outOfStockNotification p.name :: r.2)
  else
    notifyDelay p.leadTime p

/-- ProductService.handleExpiredProduct. -/
def handleExpiredProduct (now : Int) (p : Product) : Product × List Event :=
  if p.available > 0 ∧ p.expiryDate > now then
    decrementStock p
  else
    let r := setOutOfStock p
    (r.1, Event.expirationNotification p.name p.expiryDate :: r.2)

/-- ProductService.processNormalProduct. -/
def processNormalProduct (p : Product) : Product × List Event :=
  if p.available > 0 then
    decrementStock p
  else if p.leadTime > 0 then
    notifyDelay p.leadTime p
  else
    (p, [])

/-- ProductService.processSeasonalProduct: in-season fast path, else the
seasonal out-of-stock handler. -/
def processSeasonalProduct (now : Int) (p : Product) : Product × List Event :=
  let inSeason := now > p.seasonStartDate ∧ now < p.seasonEndDate
  if inSeason ∧ p.available > 0 then
    decrementStock p
  else
    handleSeasonalProduct now p

/-- ProductService.processExpirableProduct. -/
def processExpirableProduct (now : Int) (p : Product) : Product × List Event :=
  let notExpired := p.expiryDate > now
  if p.available > 0 ∧ notExpired then
    decrementStock p
  else
    handleExpiredProduct now p

/-- ProductService.processProduct: dispatch on `product.type` via the
handler record keyed by PRODUCT_TYPE; an unknown type has no handler and the
service throws (the spec's UnsupportedTypeError). -/
def processProduct (now : Int) (p : Product) : Except String (Product × List Event) :=
  if p.type = "NORMAL" then .ok (processNormalProduct p)
  else if p.type = "SEASONAL" then .ok (processSeasonalProduct now p)
  else if p.type = "EXPIRABLE" then .ok (processExpirableProduct now p)
  else .error ("No handler for product type " ++ p.type)

/-- An order together with its resolved line-item products, after
OrderRepository.findOrderWithProducts (`{id, products: [{product}]}`). -/
structure OrderWithProducts where
  id : Int
  products : List Product
  deriving DecidableEq, Repr

/-- OrderRepository.findOrderWithProducts: the order with the given id, or
absent. The database is modelled as the list of stored orders. -/
def findOrderWithProducts (store : List OrderWithProducts) (orderId : Int) :
    Option OrderWithProducts :=
  store.find? (fun o => o.id == orderId)

/-- The per-line-item loop of OrderService.processOrder: each item is fully
processed before the next begins; the first error aborts the remaining items,
keeping the events of the items already processed. -/
def processOrderItems (now : Int) : List Product → List Event × Except String Unit
  | [] => ([], .ok ())
  | p :: ps =>
    match processProduct now p with
    | .error e => ([], .error e)
    | .ok (_, es) =>
      let r := processOrderItems now ps
      (es ++ r.1, r.2)

/-- OrderService.processOrder: load the order, fail if absent, apply the engine
to every line item, return the order's id. The first component is the full
ordered side-effect trace of the call. -/
def processOrder (now : Int) (store : List OrderWithProducts) (orderId : Int) :
    List Event × Except String Int :=
  match findOrderWithProducts store orderId with
  | none => ([], .error ("Order " ++ toString orderId ++ " not found"))
  | some order =>
    let r := processOrderItems now order.products
    (r.1, r.2.map (fun _ => order.id))

/-! Concrete products used as witnesses and counterexamples, mirroring the
seed data of `scripts/seed-postman-data.ts` (timestamps relative to `now = 0`). -/

/-- In-season seasonal product, available, whose restock date falls after the
season end (leadTime 30 days, season from 10 days ago to 10 days ahead). -/
def pumpkinEarly : Product :=
  ⟨1, 30, 5, "SEASONAL", "Pumpkin",
   0, -10 * MILLISECONDS_PER_DAY, 10 * MILLISECONDS_PER_DAY⟩

/-- Seasonal product whose season ended 5 days ago (seed product 11). -/
def pumpkin : Product :=
  ⟨11, 15, 10, "SEASONAL", "Pumpkin",
   0, -60 * MILLISECONDS_PER_DAY, -5 * MILLISECONDS_PER_DAY⟩

/-- Seasonal product whose season has not started and whose restock date falls
after the season end (season from 10 to 20 days ahead, leadTime 30 days). -/
def grapesLate : Product :=
  ⟨2, 30, 5, "SEASONAL", "Grapes",
   0, 10 * MILLISECONDS_PER_DAY, 20 * MILLISECONDS_PER_DAY⟩

/-- Seasonal product whose season has not started, restock feasible
(seed product 10: season 180 to 240 days ahead, leadTime 15 days). -/
def grapes : Product :=
  ⟨10, 15, 30, "SEASONAL", "Grapes",
   0, 180 * MILLISECONDS_PER_DAY, 240 * MILLISECONDS_PER_DAY⟩

/-- Normal product, out of stock with a positive lead time (seed product 2). -/
def usbDongle : Product := ⟨2, 10, 0, "NORMAL", "USB Dongle", 0, 0, 0⟩

/-- Expirable product that expired 2 days ago (seed product 5). -/
def milk : Product :=
  ⟨5, 90, 6, "EXPIRABLE", "Milk", -2 * MILLISECONDS_PER_DAY, 0, 0⟩

/-- Expirable product, available and not expired (seed product 4). -/
def butter : Product :=
  ⟨4, 15, 30, "EXPIRABLE", "Butter", 26 * MILLISECONDS_PER_DAY, 0, 0⟩

/-- Store holding one order with no line items (seed order 12). -/
def emptyOrderStore : List OrderWithProducts := [⟨12, []⟩]

/-! Dispatch lemmas: processProduct routes each known type string to its
handler. -/

/-- Dispatch of NORMAL products. -/
theorem processProduct_normal (now : Int) (p : Product) (h : p.type = "NORMAL") :
    processProduct now p = .ok (processNormalProduct p) := by
  unfold processProduct
  rw [h]
  rfl

/-- Dispatch of SEASONAL products. -/
theorem processProduct_seasonal (now : Int) (p : Product) (h : p.type = "SEASONAL") :
    processProduct now p = .ok (processSeasonalProduct now p) := by
  unfold processProduct
  rw [h]
  rfl

/-- Dispatch of EXPIRABLE products. -/
theorem processProduct_expirable (now : Int) (p : Product) (h : p.type = "EXPIRABLE") :
    processProduct now p = .ok (processExpirableProduct now p) := by
  unfold processProduct
  rw [h]
  rfl

/-- C1, counterexample: a SEASONAL product that is in season with stock
available takes the decrement fast path even though now + leadTimeDays falls
after seasonEndDate, so no out-of-stock notification is sent and available is
not forced to 0 — the claim's "regardless of whether the product is in or out
of season" fails. -/
theorem seasonal_fast_path_beats_restock_check :
    pumpkinEarly.type = "SEASONAL" ∧
    (0 : Int) + pumpkinEarly.leadTime * MILLISECONDS_PER_DAY > pumpkinEarly.seasonEndDate ∧
    processProduct 0 pumpkinEarly =
      .ok ({ pumpkinEarly with available := 4 },
           [Event.updateProduct { pumpkinEarly with available := 4 }]) ∧
    Event.outOfStockNotification pumpkinEarly.name ∉
      ([Event.updateProduct { pumpkinEarly with available := 4 }] : List Event) ∧
    ({ pumpkinEarly with available := 4 } : Product).available ≠ 0 := by
  decide

/-- C1, amended: for every SEASONAL product for which now + leadTimeDays is
after seasonEndDate, provided the in-season decrement fast path does not apply
(the product is not both in season and available > 0), the engine sends an
out-of-stock notification with the product's name and forces available to 0. -/
theorem seasonal_restock_after_end (now : Int) (p : Product)
    (hType : p.type = "SEASONAL")
    (hRestock : now + p.leadTime * MILLISECONDS_PER_DAY > p.seasonEndDate)
    (hNoFast : ¬((now > p.seasonStartDate ∧ now < p.seasonEndDate) ∧ p.available > 0)) :
    processProduct now p =
      .ok ({ p with available := 0 },
           [Event.outOfStockNotification p.name,
            Event.updateProduct { p with available := 0 }]) := by
  rw [processProduct_seasonal now p hType]
  simp only [processSeasonalProduct]
  rw [if_neg hNoFast]
  simp only [handleSeasonalProduct]
  rw [if_pos hRestock]
  rfl

/-- C1, witness: the amended theorem applied to a seasonal product whose season
ended 5 days ago with a 15-day lead time. -/
theorem seasonal_restock_after_end_witness :
    ((0 : Int) + pumpkin.leadTime * MILLISECONDS_PER_DAY > pumpkin.seasonEndDate ∧
     ¬(((0 : Int) > pumpkin.seasonStartDate ∧ (0 : Int) < pumpkin.seasonEndDate) ∧
        pumpkin.available > 0)) ∧
    processProduct 0 pumpkin =
      .ok ({ pumpkin with available := 0 },
           [Event.outOfStockNotification pumpkin.name,
            Event.updateProduct { pumpkin with available := 0 }]) :=
  ⟨⟨by decide, by decide⟩,
   seasonal_restock_after_end 0 pumpkin rfl (by decide) (by decide)⟩

/-- C2, counterexample: a SEASONAL product whose season has not started but
whose restock date falls after seasonEndDate hits the restock check first, so
available is forced to 0 — the claim's "leaves available unchanged" fails. -/
theorem seasonal_not_started_forced_to_zero :
    grapesLate.type = "SEASONAL" ∧
    grapesLate.seasonStartDate > (0 : Int) ∧
    processProduct 0 grapesLate =
      .ok ({ grapesLate with available := 0 },
           [Event.outOfStockNotification grapesLate.name,
            Event.updateProduct { grapesLate with available := 0 }]) ∧
    ({ grapesLate with available := 0 } : Product).available ≠ grapesLate.available := by
  decide

/-- C2, amended: for every SEASONAL product whose seasonStartDate is in the
future at decision time and for which now + leadTimeDays is not after
seasonEndDate, the engine sends an out-of-stock notification with the product's
name and persists the record with available (and every other field) unchanged. -/
theorem seasonal_season_not_started (now : Int) (p : Product)
    (hType : p.type = "SEASONAL")
    (hStart : p.seasonStartDate > now)
    (hRestock : ¬(now + p.leadTime * MILLISECONDS_PER_DAY > p.seasonEndDate)) :
    processProduct now p =
      .ok (p, [Event.outOfStockNotification p.name, Event.updateProduct p]) := by
  rw [processProduct_seasonal now p hType]
  simp only [processSeasonalProduct]
  rw [if_neg (by omega)]
  simp only [handleSeasonalProduct]
  rw [if_neg hRestock, if_pos hStart]
  rfl

/-- C2, witness: the amended theorem applied to the seed's Grapes product
(season 180 to 240 days ahead, 15-day lead time). -/
theorem seasonal_season_not_started_witness :
    (grapes.seasonStartDate > (0 : Int) ∧
     ¬((0 : Int) + grapes.leadTime * MILLISECONDS_PER_DAY > grapes.seasonEndDate)) ∧
    processProduct 0 grapes =
      .ok (grapes, [Event.outOfStockNotification grapes.name, Event.updateProduct grapes]) :=
  ⟨⟨by decide, by decide⟩,
   seasonal_season_not_started 0 grapes rfl (by decide) (by decide)⟩

/-- C3: for every EXPIRABLE product, if available > 0 and expiryDate is strictly
in the future the engine decrements available by exactly 1 and sends no
expiration notification; otherwise it sends one expiration notification with the
product's name and expiryDate and available becomes exactly 0. -/
theorem expirable_branches (now : Int) (p : Product) (hType : p.type = "EXPIRABLE") :
    (p.available > 0 ∧ p.expiryDate > now →
      processProduct now p =
        .ok ({ p with available := p.available - 1 },
             [Event.updateProduct { p with available := p.available - 1 }])) ∧
    (¬(p.available > 0 ∧ p.expiryDate > now) →
      processProduct now p =
        .ok ({ p with available := 0 },
             [Event.expirationNotification p.name p.expiryDate,
              Event.updateProduct { p with available := 0 }])) := by
  constructor <;> intro h <;> rw [processProduct_expirable now p hType] <;>
    simp only [processExpirableProduct]
  · rw [if_pos h]
    rfl
  · rw [if_neg h]
    simp only [handleExpiredProduct]
    rw [if_neg h]
    rfl

/-- C3, witness: the branch theorem applied to the seed's expired Milk product. -/
theorem expirable_branches_witness :
    milk.type = "EXPIRABLE" ∧
    ((milk.available > 0 ∧ milk.expiryDate > (0 : Int) →
      processProduct 0 milk =
        .ok ({ milk with available := milk.available - 1 },
             [Event.updateProduct { milk with available := milk.available - 1 }])) ∧
     (¬(milk.available > 0 ∧ milk.expiryDate > (0 : Int)) →
      processProduct 0 milk =
        .ok ({ milk with available := 0 },
             [Event.expirationNotification milk.name milk.expiryDate,
              Event.updateProduct { milk with available := 0 }]))) :=
  ⟨rfl, expirable_branches 0 milk rfl⟩

/-- C4: for every NORMAL product with available = 0 and leadTime > 0, the engine
performs exactly two side effects in order: it persists the full (unchanged)
product record, then sends one delay notification carrying that exact leadTime
and the product's name; the returned record still has available = 0. -/
theorem normal_out_of_stock_delay (now : Int) (p : Product)
    (hType : p.type = "NORMAL") (hAvail : p.available = 0) (hLead : p.leadTime > 0) :
    processProduct now p =
      .ok (p, [Event.updateProduct p, Event.delayNotification p.leadTime p.name]) := by
  rw [processProduct_normal now p hType]
  simp only [processNormalProduct]
  rw [if_neg (by omega), if_pos hLead]
  rfl

/-- C4, witness: the delay theorem applied to the seed's out-of-stock USB
Dongle (leadTime 10). -/
theorem normal_out_of_stock_delay_witness :
    (usbDongle.available = 0 ∧ usbDongle.leadTime > 0) ∧
    processProduct 0 usbDongle =
      .ok (usbDongle,
           [Event.updateProduct usbDongle,
            Event.delayNotification usbDongle.leadTime usbDongle.name]) :=
  ⟨⟨rfl, by decide⟩, normal_out_of_stock_delay 0 usbDongle rfl rfl (by decide)⟩

/-! Per-handler characterizations shared by the invariant and frame claims:
the returned record is the input record unchanged, decremented by one (only
on branches guarded by available > 0), or zeroed out; and each handler issues
at most one persistence write and at most one notification. -/

/-- Shape of the NORMAL handler's result record. -/
theorem processNormalProduct_shape (p : Product) :
    (processNormalProduct p).1 = p ∨
    ((processNormalProduct p).1 = { p with available := p.available - 1 } ∧
      p.available > 0) ∨
    (processNormalProduct p).1 = { p with available := 0 } := by
  simp only [processNormalProduct, notifyDelay, decrementStock, updateProduct]
  split_ifs with h1 h2 <;> simp_all

/-- Shape of the SEASONAL handler's result record. -/
theorem processSeasonalProduct_shape (now : Int) (p : Product) :
    (processSeasonalProduct now p).1 = p ∨
    ((processSeasonalProduct now p).1 = { p with available := p.available - 1 } ∧
      p.available > 0) ∨
    (processSeasonalProduct now p).1 = { p with available := 0 } := by
  simp only [processSeasonalProduct, handleSeasonalProduct, notifyDelay,
    decrementStock, setOutOfStock, updateProduct]
  split_ifs with h1 h2 h3 <;> simp_all

/-- Shape of the EXPIRABLE handler's result record. -/
theorem processExpirableProduct_shape (now : Int) (p : Product) :
    (processExpirableProduct now p).1 = p ∨
    ((processExpirableProduct now p).1 = { p with available := p.available - 1 } ∧
      p.available > 0) ∨
    (processExpirableProduct now p).1 = { p with available := 0 } := by
  simp only [processExpirableProduct, handleExpiredProduct, decrementStock,
    setOutOfStock, updateProduct]
  split_ifs with h1 <;> simp_all

/-- Side-effect bound for the NORMAL handler. -/
theorem processNormalProduct_bounds (p : Product) :
    (processNormalProduct p).2.countP Event.isPersist ≤ 1 ∧
    (processNormalProduct p).2.countP Event.isNotify ≤ 1 := by
  simp only [processNormalProduct, notifyDelay, decrementStock, updateProduct]
  split_ifs <;> simp [Event.isPersist, Event.isNotify]

/-- Side-effect bound for the SEASONAL handler. -/
theorem processSeasonalProduct_bounds (now : Int) (p : Product) :
    (processSeasonalProduct now p).2.countP Event.isPersist ≤ 1 ∧
    (processSeasonalProduct now p).2.countP Event.isNotify ≤ 1 := by
  simp only [processSeasonalProduct, handleSeasonalProduct, notifyDelay,
    decrementStock, setOutOfStock, updateProduct]
  split_ifs <;> simp [Event.isPersist, Event.isNotify]

/-- Side-effect bound for the EXPIRABLE handler. -/
theorem processExpirableProduct_bounds (now : Int) (p : Product) :
    (processExpirableProduct now p).2.countP Event.isPersist ≤ 1 ∧
    (processExpirableProduct now p).2.countP Event.isNotify ≤ 1 := by
  simp only [processExpirableProduct, handleExpiredProduct, decrementStock,
    setOutOfStock, updateProduct]
  split_ifs <;> simp [Event.isPersist, Event.isNotify]

/-- C5: for every product of a known type, one application of the engine
performs at most one persistence write and at most one notification call. -/
theorem processProduct_effects_bound (now : Int) (p q : Product) (es : List Event)
    (hType : p.type = "NORMAL" ∨ p.type = "SEASONAL" ∨ p.type = "EXPIRABLE")
    (hRun : processProduct now p = .ok (q, es)) :
    es.countP Event.isPersist ≤ 1 ∧ es.countP Event.isNotify ≤ 1 := by
  rcases hType with h | h | h
  · rw [processProduct_normal now p h, Except.ok.injEq] at hRun
    have hb := processNormalProduct_bounds p
    rw [hRun] at hb
    simpa using hb
  · rw [processProduct_seasonal now p h, Except.ok.injEq] at hRun
    have hb := processSeasonalProduct_bounds now p
    rw [hRun] at hb
    simpa using hb
  · rw [processProduct_expirable now p h, Except.ok.injEq] at hRun
    have hb := processExpirableProduct_bounds now p
    rw [hRun] at hb
    simpa using hb

/-- C5, witness: the bound at the out-of-stock USB Dongle, whose trace is one
persistence write followed by one delay notification. -/
theorem processProduct_effects_bound_witness :
    (usbDongle.type = "NORMAL" ∨ usbDongle.type = "SEASONAL" ∨
      usbDongle.type = "EXPIRABLE") ∧
    ([Event.updateProduct usbDongle,
      Event.delayNotification usbDongle.leadTime usbDongle.name].countP
        Event.isPersist ≤ 1 ∧
     [Event.updateProduct usbDongle,
      Event.delayNotification usbDongle.leadTime usbDongle.name].countP
        Event.isNotify ≤ 1) :=
  ⟨Or.inl rfl,
   processProduct_effects_bound 0 usbDongle usbDongle
     [Event.updateProduct usbDongle,
      Event.delayNotification usbDongle.leadTime usbDongle.name]
     (Or.inl rfl) (by decide)⟩

/-- C6: for every product with available ≥ 0 at decision time, a successful
application of the engine leaves available ≥ 0: the decrement only happens on
branches guarded by available > 0, and the only other mutation sets it to 0. -/
theorem processProduct_available_nonneg (now : Int) (p q : Product) (es : List Event)
    (h0 : 0 ≤ p.available) (hRun : processProduct now p = .ok (q, es)) :
    0 ≤ q.available := by
  unfold processProduct at hRun
  split_ifs at hRun with h1 h2 h3
  · rw [Except.ok.injEq] at hRun
    have hs := processNormalProduct_shape p
    rw [hRun] at hs
    rcases hs with rfl | ⟨rfl, hpos⟩ | rfl
    · exact h0
    · simp only [] ; omega
    · simp
  · rw [Except.ok.injEq] at hRun
    have hs := processSeasonalProduct_shape now p
    rw [hRun] at hs
    rcases hs with rfl | ⟨rfl, hpos⟩ | rfl
    · exact h0
    · simp only [] ; omega
    · simp
  · rw [Except.ok.injEq] at hRun
    have hs := processExpirableProduct_shape now p
    rw [hRun] at hs
    rcases hs with rfl | ⟨rfl, hpos⟩ | rfl
    · exact h0
    · simp only [] ; omega
    · simp

/-- C6, witness: the invariant at the in-season Pumpkin product, whose stock
decrements from 5 to 4. -/
theorem processProduct_available_nonneg_witness :
    (0 : Int) ≤ pumpkinEarly.available ∧
    (0 : Int) ≤ ({ pumpkinEarly with available := 4 } : Product).available :=
  ⟨by decide,
   processProduct_available_nonneg 0 pumpkinEarly { pumpkinEarly with available := 4 }
     [Event.updateProduct { pumpkinEarly with available := 4 }] (by decide) (by decide)⟩

/-- Helper: a result-record shape entails the frame property. -/
theorem shape_frame (p q : Product)
    (h : q = p ∨ (q = { p with available := p.available - 1 } ∧ p.available > 0) ∨
         q = { p with available := 0 }) :
    q.id = p.id ∧ q.name = p.name ∧ q.type = p.type ∧ q.leadTime = p.leadTime ∧
    q.expiryDate = p.expiryDate ∧ q.seasonStartDate = p.seasonStartDate ∧
    q.seasonEndDate = p.seasonEndDate ∧
    (q.available = p.available ∨ q.available = p.available - 1 ∨ q.available = 0) := by
  rcases h with rfl | ⟨rfl, _⟩ | rfl <;> simp

/-- C10: for every product of a known type, a successful application of the
engine leaves every field other than availableQuantity unchanged (in particular
the delay helper's leadTime assignment writes back the product's own current
leadTime), and availableQuantity itself stays, drops by exactly 1, or becomes 0. -/
theorem processProduct_frame (now : Int) (p q : Product) (es : List Event)
    (hType : p.type = "NORMAL" ∨ p.type = "SEASONAL" ∨ p.type = "EXPIRABLE")
    (hRun : processProduct now p = .ok (q, es)) :
    q.id = p.id ∧ q.name = p.name ∧ q.type = p.type ∧ q.leadTime = p.leadTime ∧
    q.expiryDate = p.expiryDate ∧ q.seasonStartDate = p.seasonStartDate ∧
    q.seasonEndDate = p.seasonEndDate ∧
    (q.available = p.available ∨ q.available = p.available - 1 ∨ q.available = 0) := by
  apply shape_frame
  rcases hType with h | h | h
  · rw [processProduct_normal now p h, Except.ok.injEq] at hRun
    have hs := processNormalProduct_shape p
    rw [hRun] at hs
    exact hs
  · rw [processProduct_seasonal now p h, Except.ok.injEq] at hRun
    have hs := processSeasonalProduct_shape now p
    rw [hRun] at hs
    exact hs
  · rw [processProduct_expirable now p h, Except.ok.injEq] at hRun
    have hs := processExpirableProduct_shape now p
    rw [hRun] at hs
    exact hs

/-- C10, witness: the frame property at the fresh Butter product, whose stock
decrements from 30 to 29 with all other fields intact. -/
theorem processProduct_frame_witness :
    (butter.type = "NORMAL" ∨ butter.type = "SEASONAL" ∨ butter.type = "EXPIRABLE") ∧
    (({ butter with available := 29 } : Product).id = butter.id ∧
     ({ butter with available := 29 } : Product).name = butter.name ∧
     ({ butter with available := 29 } : Product).type = butter.type ∧
     ({ butter with available := 29 } : Product).leadTime = butter.leadTime ∧
     ({ butter with available := 29 } : Product).expiryDate = butter.expiryDate ∧
     ({ butter with available := 29 } : Product).seasonStartDate = butter.seasonStartDate ∧
     ({ butter with available := 29 } : Product).seasonEndDate = butter.seasonEndDate ∧
     (({ butter with available := 29 } : Product).available = butter.available ∨
      ({ butter with available := 29 } : Product).available = butter.available - 1 ∨
      ({ butter with available := 29 } : Product).available = 0)) :=
  ⟨Or.inr (Or.inr rfl),
   processProduct_frame 0 butter { butter with available := 29 }
     [Event.updateProduct { butter with available := 29 }]
     (Or.inr (Or.inr rfl)) (by decide)⟩

/-- C7: the engine fails (the spec's UnsupportedTypeError) if and only if the
product's type is outside the closed set of the three known variants; for the
three known types no error is raised. -/
theorem processProduct_unsupported_type_iff (now : Int) (p : Product) :
    (∃ e, processProduct now p = .error e) ↔
      ¬(p.type = "NORMAL" ∨ p.type = "SEASONAL" ∨ p.type = "EXPIRABLE") := by
  unfold processProduct
  split_ifs with h1 h2 h3 <;> simp_all

/-- C8: processing an order identifier with no matching order record fails with
the not-found error and performs zero persistence writes and zero notifications
(the side-effect trace is empty). -/
theorem processOrder_not_found (now : Int) (store : List OrderWithProducts)
    (orderId : Int) (hAbsent : ∀ o ∈ store, o.id ≠ orderId) :
    processOrder now store orderId =
      ([], .error ("Order " ++ toString orderId ++ " not found")) := by
  have hFind : findOrderWithProducts store orderId = none := by
    unfold findOrderWithProducts
    rw [List.find?_eq_none]
    intro o ho
    simpa using hAbsent o ho
  unfold processOrder
  rw [hFind]

/-- C8, witness: the not-found theorem at order id 999 against the seed store. -/
theorem processOrder_not_found_witness :
    (∀ o ∈ emptyOrderStore, o.id ≠ 999) ∧
    processOrder 0 emptyOrderStore 999 =
      ([], .error ("Order " ++ toString (999 : Int) ++ " not found")) :=
  ⟨by decide, processOrder_not_found 0 emptyOrderStore 999 (by decide)⟩

/-- C9: processing an order that exists but has zero line items succeeds,
returns that order's identifier, and performs zero persistence writes and zero
notifications (the side-effect trace is empty). -/
theorem processOrder_empty_order (now : Int) (store : List OrderWithProducts)
    (orderId : Int) (o : OrderWithProducts)
    (hFind : findOrderWithProducts store orderId = some o)
    (hEmpty : o.products = []) :
    processOrder now store orderId = ([], .ok orderId) := by
  have hid : o.id = orderId := by
    have hp := List.find?_some
      (show store.find? (fun x => x.id == orderId) = some o from hFind)
    simpa using hp
  unfold processOrder
  rw [hFind]
  simp [processOrderItems, hEmpty, hid, Except.map]

/-- C9, witness: the empty-order theorem at the seed's empty order 12. -/
theorem processOrder_empty_order_witness :
    (findOrderWithProducts emptyOrderStore 12 = some ⟨12, []⟩ ∧
     (⟨12, []⟩ : OrderWithProducts).products = []) ∧
    processOrder 0 emptyOrderStore 12 = ([], .ok 12) :=
  ⟨⟨by decide, rfl⟩, processOrder_empty_order 0 emptyOrderStore 12 ⟨12, []⟩ (by decide) rfl⟩

end Merjane
